import Mathlib

/-!
Shallow embedding of `src/app/src/main/cpp/ndi_wrapper.c`, the JNI wrapper
around the NDI receive SDK.  Each definition mirrors one C function or struct
of that file; external collaborators (the NDI engine itself and the JNI
environment) enter as explicit parameters: the frame the engine delivered, and
Boolean oracles for the JNI/allocation calls that can fail
(`calloc`, `malloc`, `NewDirectByteBuffer`, `NewObject`, class lookup).
Machine integers (`jint`, `int`, `int64_t`) are modelled as `Int`; the
`double` arithmetic of the quality score is modelled as exact rational
arithmetic with the C `(int)` cast rendered as truncation toward zero;
pointers are byte addresses (`Nat`, with `0` for `NULL`), and the planar audio
sample memory is a map from byte offset to the 32-bit pattern stored there
(samples are copied verbatim, never computed with, so their carrier type is
irrelevant and `Int` is used).
-/

namespace NdiWrapper

/-- FourCC tag of H.264 compressed video, `'H264'` (line 33 of the source). -/
def FOURCC_H264 : Nat := 0x34363248

/-- FourCC tag of HEVC compressed video, `'HEVC'` (line 34 of the source). -/
def FOURCC_HEVC : Nat := 0x43564548

/-- The NDI bandwidth enumeration (`NDIlib_recv_bandwidth_e`). -/
inductive NDIlib_recv_bandwidth_e where
  | metadata_only
  | audio_only
  | lowest
  | highest
deriving DecidableEq

/-- The NDI color-format enumeration (`NDIlib_recv_color_format_e`). -/
inductive NDIlib_recv_color_format_e where
  | BGRX_BGRA
  | UYVY_BGRA
  | RGBX_RGBA
  | UYVY_RGBA
  | fastest
  | best
deriving DecidableEq

/-- `map_bandwidth` (source lines 115-123): switch over the caller's
bandwidth integer, defaulting to `highest`. -/
def map_bandwidth (bandwidth : Int) : NDIlib_recv_bandwidth_e :=
  if bandwidth = 0 then .metadata_only
  else if bandwidth = 1 then .audio_only
  else if bandwidth = 2 then .lowest
  else if bandwidth = 3 then .highest
  else .highest

/-- `map_color_format` (source lines 125-135): switch over the caller's
color-format integer, defaulting to `UYVY_BGRA`. -/
def map_color_format (colorFormat : Int) : NDIlib_recv_color_format_e :=
  if colorFormat = 0 then .BGRX_BGRA
  else if colorFormat = 1 then .UYVY_BGRA
  else if colorFormat = 2 then .RGBX_RGBA
  else if colorFormat = 3 then .UYVY_RGBA
  else if colorFormat = 100 then .fastest
  else if colorFormat = 101 then .best
  else .UYVY_BGRA

/-- The NDI frame-format enumeration (`NDIlib_frame_format_type_e`). -/
inductive NDIlib_frame_format_type_e where
  | progressive
  | interleaved
  | field_0
  | field_1
deriving DecidableEq

/-- The engine's video frame descriptor (`NDIlib_video_frame_v2_t`), with the
data pointer as a byte address (`0` = `NULL`). -/
structure NDIlib_video_frame_v2_t where
  xres : Int
  yres : Int
  FourCC : Nat
  frame_rate_N : Int
  frame_rate_D : Int
  frame_format_type : NDIlib_frame_format_type_e
  timestamp : Int
  line_stride_in_bytes : Int
  data_size_in_bytes : Int
  p_data : Nat
deriving DecidableEq

/-- The compressed-format test of `receiverCaptureVideo` (source line 655). -/
def is_compressed_fourcc (fourcc : Nat) : Bool :=
  fourcc == FOURCC_H264 || fourcc == FOURCC_HEVC

/-- Buffer-size computation of `receiverCaptureVideo` (source lines 666-673):
the engine-reported byte size for compressed frames, otherwise
`|line stride| * yres` (the stride's sign is dropped exactly as the C does). -/
def video_buffer_size (f : NDIlib_video_frame_v2_t) : Int :=
  if is_compressed_fourcc f.FourCC then f.data_size_in_bytes
  else
    (if f.line_stride_in_bytes < 0 then -f.line_stride_in_bytes
     else f.line_stride_in_bytes) * f.yres

/-- The `VideoFrame` object marshalled back to the caller (source lines
696-714), with the direct byte buffer modelled by its base address and size. -/
structure VideoFrameOut where
  width : Int
  height : Int
  stride : Int
  frameRateN : Int
  frameRateD : Int
  fourCC : Nat
  timestamp : Int
  bufferPtr : Nat
  bufferSize : Int
  isProgressive : Bool
deriving DecidableEq

/-- Outcome of one `receiverCaptureVideo` call: the object returned to the
caller (`none` = the C function returned `NULL`) and whether
`NDIlib_recv_free_video_v2` was invoked before returning. -/
structure VideoCaptureOutcome where
  result : Option VideoFrameOut
  frameFreed : Bool
deriving DecidableEq

/-- `Java_..._receiverCaptureVideo` (source lines 609-726) from the point the
receiver is consulted.  `receiverAvail` models `receiverPtr != 0` with a live
`recv`; `cacheOk` the JNI constructor cache; `callocOk` the handle
allocation; `captured` is what `NDIlib_recv_capture_v2` delivered (`none` =
timeout / non-video frame kind); `byteBufferOk` and `newObjectOk` the two JNI
constructions that may fail. -/
def receiverCaptureVideo (receiverAvail cacheOk callocOk : Bool)
    (captured : Option NDIlib_video_frame_v2_t) (byteBufferOk newObjectOk : Bool) :
    VideoCaptureOutcome :=
  if !receiverAvail then ⟨none, false⟩
  else if !cacheOk then ⟨none, false⟩
  else if !callocOk then ⟨none, false⟩
  else
    match captured with
    | none => ⟨none, false⟩
    | some f =>
      if f.p_data = 0 then ⟨none, true⟩
      else if video_buffer_size f ≤ 0 then ⟨none, true⟩
      else if !byteBufferOk then ⟨none, true⟩
      else if !newObjectOk then ⟨none, true⟩
      else
        ⟨some { width := f.xres
                height := f.yres
                stride := if is_compressed_fourcc f.FourCC then 0
                          else f.line_stride_in_bytes
                frameRateN := f.frame_rate_N
                frameRateD := f.frame_rate_D
                fourCC := f.FourCC
                timestamp := f.timestamp
                bufferPtr := f.p_data
                bufferSize := video_buffer_size f
                isProgressive := f.frame_format_type == .progressive },
         false⟩

/-- Effects of one `receiverFreeVideo` call (source lines 728-757): whether the
frame was handed back to the engine and whether the handle struct was freed. -/
structure VideoFreeEffects where
  frameReleasedToEngine : Bool
  handleStructFreed : Bool
deriving DecidableEq

/-- `Java_..._receiverFreeVideo` (source lines 728-757): a no-op on a zero
frame handle, otherwise the frame is released to the engine (with or without
the receiver's lock) and the handle struct freed. -/
def receiverFreeVideo (frameHandlePresent : Bool) : VideoFreeEffects :=
  if !frameHandlePresent then ⟨false, false⟩ else ⟨true, true⟩

/-- The engine's audio frame descriptor (`NDIlib_audio_frame_v2_t`).  The
planar sample memory is a map from byte offset (relative to `p_data`) to the
32-bit float pattern stored there; `none` models a `NULL` data pointer. -/
structure NDIlib_audio_frame_v2_t where
  sample_rate : Int
  no_channels : Int
  no_samples : Int
  timestamp : Int
  p_data : Option (Nat → Int)
  channel_stride_in_bytes : Int

/-- The C `(size_t)` cast of a (signed) integer: reduction modulo `2^64`. -/
def size_t_cast (x : Int) : Nat := (x % (2 ^ 64 : Int)).toNat

/-- Byte offset read by the conversion loop (source lines 836-841) for channel
`c`, sample `s`: `base + c * (size_t)channel_stride_in_bytes` reinterpreted as
a float array and indexed at `s`, all in wrap-around `size_t` arithmetic. -/
def planar_byte_offset (stride : Int) (c s : Nat) : Nat :=
  (c * size_t_cast stride + 4 * s) % 2 ^ 64

/-- The planar-to-interleaved conversion loop (source lines 835-842): for each
sample `s` and channel `c` (inner loop), entry `s * channels + c` of the new
buffer receives the float at `planar_byte_offset stride c s`. -/
def interleave_audio (mem : Nat → Int) (stride : Int) (channels samples : Nat) :
    List Int :=
  (List.range samples).flatMap
    (fun s => (List.range channels).map (fun c => mem (planar_byte_offset stride c s)))

/-- The `AudioFrame` object marshalled back to the caller (source lines
855-865), with the fresh interleaved buffer exposed as a list of samples. -/
structure AudioFrameOut where
  sampleRate : Int
  channels : Int
  samplesPerChannel : Int
  timestamp : Int
  buffer : List Int
deriving DecidableEq

/-- The `NdiAudioFrameHandle` struct (source lines 68-73): it retains the
planar frame descriptor, the freshly allocated interleaved buffer and that
buffer's byte length. -/
structure NdiAudioFrameHandle where
  frame : NDIlib_audio_frame_v2_t
  interleaved_data : List Int
  interleaved_bytes : Nat

/-- Outcome of one `receiverCaptureAudio` call: the object returned to the
caller, the surviving handle struct (`none` when the C function freed it), and
whether `NDIlib_recv_free_audio_v2` was invoked before returning. -/
structure AudioCaptureOutcome where
  result : Option AudioFrameOut
  handle : Option NdiAudioFrameHandle
  planarFreedDuringCapture : Bool

/-- `Java_..._receiverCaptureAudio` (source lines 759-878).  Parameters as in
`receiverCaptureVideo`, plus `mallocOk` for the interleaved-buffer
allocation; `captured` is what `NDIlib_recv_capture_v2` delivered (`none` =
timeout / non-audio frame kind). -/
def receiverCaptureAudio (receiverAvail cacheOk callocOk : Bool)
    (captured : Option NDIlib_audio_frame_v2_t)
    (mallocOk byteBufferOk newObjectOk : Bool) : AudioCaptureOutcome :=
  if !receiverAvail then ⟨none, none, false⟩
  else if !cacheOk then ⟨none, none, false⟩
  else if !callocOk then ⟨none, none, false⟩
  else
    match captured with
    | none => ⟨none, none, false⟩
    | some f =>
      match f.p_data with
      | none => ⟨none, none, true⟩
      | some mem =>
        if f.sample_rate ≤ 0 then ⟨none, none, true⟩
        else if f.no_channels ≤ 0 then ⟨none, none, true⟩
        else if f.no_samples ≤ 0 then ⟨none, none, true⟩
        else if !mallocOk then ⟨none, none, true⟩
        else
          let channels := f.no_channels.toNat
          let samples := f.no_samples.toNat
          let inter := interleave_audio mem f.channel_stride_in_bytes channels samples
          if !byteBufferOk then ⟨none, none, true⟩
          else if !newObjectOk then ⟨none, none, true⟩
          else
            ⟨some { sampleRate := f.sample_rate
                    channels := f.no_channels
                    samplesPerChannel := f.no_samples
                    timestamp := f.timestamp
                    buffer := inter },
             some { frame := f
                    interleaved_data := inter
                    interleaved_bytes := channels * samples * 4 },
             false⟩

/-- Effects of one `receiverFreeAudio` call (source lines 880-910). -/
structure AudioFreeEffects where
  planarReleasedToEngine : Bool
  interleavedFreed : Bool
  handleStructFreed : Bool
deriving DecidableEq

/-- `Java_..._receiverFreeAudio` (source lines 880-910): a no-op on a zero
frame handle; otherwise `NDIlib_recv_free_audio_v2` is called on the retained
planar frame (with or without the receiver's lock), then the interleaved
buffer and the handle struct are freed. -/
def receiverFreeAudio (frameHandle : Option NdiAudioFrameHandle) : AudioFreeEffects :=
  match frameHandle with
  | none => ⟨false, false, false⟩
  | some _ => ⟨true, true, true⟩

/-- Truncation toward zero of a rational: what the C `(int)` cast does to a
`double` value. -/
def rat_trunc (x : ℚ) : Int := if 0 ≤ x then ⌊x⌋ else ⌈x⌉

/-- Quality-score computation of `Java_..._receiverGetPerformance` (source
lines 943-954): 0 without a connection; 100 with a connection but no totalled
video frames; otherwise `(int)(100.0 - drop_rate * 100.0)` clamped to
`[0, 100]` by the two `if` statements of lines 948-949.  The `double`
arithmetic is modelled exactly: `100.0 - (dropped/total) * 100.0` is the
rational `(100*total - 100*dropped) / total`, and the `(int)` cast truncates
toward zero, which for a positive divisor is `Int.tdiv` of numerator by
denominator (see `quality_score_eq_rat_trunc` inside the C5 theorem). -/
def quality_score (connections totalVideo droppedVideo : Int) : Int :=
  if 0 < connections then
    if 0 < totalVideo then
      let q : Int := Int.tdiv (100 * totalVideo - 100 * droppedVideo) totalVideo
      let q1 : Int := if q < 0 then 0 else q
      if 100 < q1 then 100 else q1
    else 100
  else 0

/-- Modelled from the spec: round-to-nearest (half up) of a rational, the
`round` the spec's quality-score formula names. -/
def spec_round (x : ℚ) : Int := ⌊x + 1 / 2⌋

/-- Modelled from the spec: the quality score as the spec words it,
`clamp(round(100 * (1 - droppedVideo/totalVideo)), 0, 100)` in the general
case, for refinement comparison with `quality_score`. -/
def quality_score_spec_rounded (connections totalVideo droppedVideo : Int) : Int :=
  if 0 < connections then
    if 0 < totalVideo then
      let x : ℚ := 100 * (1 - (droppedVideo : ℚ) / (totalVideo : ℚ))
      min 100 (max 0 (spec_round x))
    else 100
  else 0

/-- The process-wide library state: the `g_initialized` flag (source line 41). -/
structure LibState where
  g_initialized : Bool
deriving DecidableEq

/-- Result of one `Java_..._NdiNative_initialize` call: the returned boolean,
the new global state, and whether `NDIlib_initialize` (the engine's own
one-time setup) was invoked. -/
structure LibInitResult where
  ret : Bool
  state : LibState
  engineInitCalled : Bool
deriving DecidableEq

/-- `Java_..._NdiNative_initialize` (source lines 222-246): under the global
mutex, an already-initialized library reports success without touching the
engine; otherwise the engine is initialized (`engineOk` models whether
`NDIlib_initialize` succeeds) and the flag set on success. -/
def lib_init (s : LibState) (engineOk : Bool) : LibInitResult :=
  if s.g_initialized then ⟨true, s, false⟩
  else if engineOk then ⟨true, ⟨true⟩, true⟩
  else ⟨false, s, true⟩

/-- Result of one `Java_..._NdiNative_destroy` call: the new global state and
whether `NDIlib_destroy` was invoked. -/
structure LibDestroyResult where
  state : LibState
  engineDestroyCalled : Bool
deriving DecidableEq

/-- `Java_..._NdiNative_destroy` (source lines 248-266): a no-op when not
initialized; otherwise the engine is torn down and the flag cleared. -/
def lib_destroy (s : LibState) : LibDestroyResult :=
  if s.g_initialized then ⟨⟨false⟩, true⟩ else ⟨s, false⟩

/-- `Java_..._NdiNative_isInitialized` (source lines 268-273). -/
def lib_is_initialized (s : LibState) : Bool := s.g_initialized

/-- `Java_..._finderGetSources` (source lines 397-442).  `finderPtrNull`
models `finderPtr == 0` or a `NULL` wrapper, `finderReleased` a wrapper whose
`finder` was already destroyed; `sources` is the engine's current source
list, each name possibly `NULL`; `jniOk` models the `FindClass` /
`NewObjectArray` calls succeeding (per-element `NewStringUTF` is assumed to
succeed).  `none` is the C `NULL` return — the type's absent value, not an
error: the function has no error channel at all. -/
def finderGetSources (finderPtrNull finderReleased : Bool)
    (sources : List (Option String)) (jniOk : Bool) : Option (List String) :=
  if finderPtrNull then none
  else if finderReleased then none
  else if !jniOk then none
  else some (sources.map (fun n => n.getD ""))

/-- An uncompressed UYVY frame with a negative (bottom-up) stride, as in the
spec's buffer-size example: stride `-1920`, `yres = 1080`. -/
def vfEx : NDIlib_video_frame_v2_t :=
  { xres := 1920, yres := 1080, FourCC := 0x59565955, frame_rate_N := 30,
    frame_rate_D := 1, frame_format_type := .progressive, timestamp := 0,
    line_stride_in_bytes := -1920, data_size_in_bytes := 0, p_data := 4096 }

/-- The `VideoFrame` that capturing `vfEx` produces. -/
def vfExOut : VideoFrameOut :=
  { width := 1920, height := 1080, stride := -1920, frameRateN := 30,
    frameRateD := 1, fourCC := 0x59565955, timestamp := 0, bufferPtr := 4096,
    bufferSize := 2073600, isProgressive := true }

/-- A malformed video frame: the engine reported a `NULL` data pointer. -/
def vfNullData : NDIlib_video_frame_v2_t :=
  { xres := 1920, yres := 1080, FourCC := 0x59565955, frame_rate_N := 30,
    frame_rate_D := 1, frame_format_type := .progressive, timestamp := 0,
    line_stride_in_bytes := 1920, data_size_in_bytes := 0, p_data := 0 }

/-- A compressed (H.264) frame whose engine-reported line stride is the
nonzero value 7. -/
def vfCompressed : NDIlib_video_frame_v2_t :=
  { xres := 1920, yres := 1080, FourCC := FOURCC_H264, frame_rate_N := 30,
    frame_rate_D := 1, frame_format_type := .progressive, timestamp := 0,
    line_stride_in_bytes := 7, data_size_in_bytes := 4096, p_data := 8192 }

/-- An uncompressed frame with negative stride `-5` and `yres = 2`. -/
def vfNegStride : NDIlib_video_frame_v2_t :=
  { xres := 1, yres := 2, FourCC := 0x59565955, frame_rate_N := 30,
    frame_rate_D := 1, frame_format_type := .progressive, timestamp := 0,
    line_stride_in_bytes := -5, data_size_in_bytes := 0, p_data := 64 }

/-- The `VideoFrame` that capturing `vfNegStride` produces. -/
def vfNegStrideOut : VideoFrameOut :=
  { width := 1, height := 2, stride := -5, frameRateN := 30, frameRateD := 1,
    fourCC := 0x59565955, timestamp := 0, bufferPtr := 64, bufferSize := 10,
    isProgressive := true }

/-- A well-formed one-channel, one-sample audio frame. -/
def audioValid : NDIlib_audio_frame_v2_t :=
  { sample_rate := 48000, no_channels := 1, no_samples := 1, timestamp := 0,
    p_data := some (fun _ => 5), channel_stride_in_bytes := 4 }

/-- An invalid audio frame: the engine reported zero channels. -/
def audioBad : NDIlib_audio_frame_v2_t :=
  { sample_rate := 48000, no_channels := 0, no_samples := 4, timestamp := 0,
    p_data := some (fun _ => 0), channel_stride_in_bytes := 16 }

/-- Planar sample memory of the spec's conversion example: channel 0 holds
`[1, 2, 3, 4]` at byte offsets 0, 4, 8, 12 and channel 1 holds
`[10, 20, 30, 40]` at byte offsets 16, 20, 24, 28. -/
def memEx : Nat → Int := fun off =>
  if off = 0 then 1 else if off = 4 then 2
  else if off = 8 then 3 else if off = 12 then 4
  else if off = 16 then 10 else if off = 20 then 20
  else if off = 24 then 30 else if off = 28 then 40
  else 0

/-- The spec's conversion example: 2 channels of 4 samples, 16-byte channel
stride, planar data `memEx`. -/
def audioEx : NDIlib_audio_frame_v2_t :=
  { sample_rate := 48000, no_channels := 2, no_samples := 4, timestamp := 0,
    p_data := some memEx, channel_stride_in_bytes := 16 }

/-- The `AudioFrame` that capturing `audioEx` produces. -/
def audioExOut : AudioFrameOut :=
  { sampleRate := 48000, channels := 2, samplesPerChannel := 4, timestamp := 0,
    buffer := interleave_audio memEx 16 2 4 }

/-! Helper lemmas shared by the claim theorems. -/

/-- A capture that delivered no video frame returns `NULL` and frees
nothing. -/
theorem receiverCaptureVideo_none (ra ck cl b n : Bool) :
    receiverCaptureVideo ra ck cl none b n = ⟨none, false⟩ := by
  cases ra <;> cases ck <;> cases cl <;> rfl

/-- Inversion: a non-`NULL` `receiverCaptureVideo` return determines the
returned object, and certifies that the frame passed the `NULL`-data and
buffer-size validation and was not released. -/
theorem receiverCaptureVideo_some_inv {ra ck cl : Bool}
    {f : NDIlib_video_frame_v2_t} {b n : Bool} {out : VideoFrameOut}
    (hout : (receiverCaptureVideo ra ck cl (some f) b n).result = some out) :
    out = { width := f.xres, height := f.yres,
            stride := if is_compressed_fourcc f.FourCC then 0
                      else f.line_stride_in_bytes,
            frameRateN := f.frame_rate_N, frameRateD := f.frame_rate_D,
            fourCC := f.FourCC, timestamp := f.timestamp,
            bufferPtr := f.p_data, bufferSize := video_buffer_size f,
            isProgressive := f.frame_format_type == .progressive } ∧
    f.p_data ≠ 0 ∧ 0 < video_buffer_size f ∧
    (receiverCaptureVideo ra ck cl (some f) b n).frameFreed = false := by
  unfold receiverCaptureVideo at hout ⊢
  repeat' split at hout
  all_goals simp_all
  repeat' split
  all_goals simp_all
  all_goals omega

/-- A video frame with a `NULL` data pointer or a non-positive computed size
is released to the engine and `NULL` is returned. -/
theorem receiverCaptureVideo_invalid {f : NDIlib_video_frame_v2_t} {b n : Bool}
    (hbad : f.p_data = 0 ∨ video_buffer_size f ≤ 0) :
    receiverCaptureVideo true true true (some f) b n = ⟨none, true⟩ := by
  unfold receiverCaptureVideo
  rcases hbad with h | h
  · simp [h]
  · by_cases hp : f.p_data = 0 <;> simp [hp, h]

/-- A capture that delivered no audio frame returns `NULL` and frees
nothing. -/
theorem receiverCaptureAudio_none (ra ck cl m b n : Bool) :
    receiverCaptureAudio ra ck cl none m b n = ⟨none, none, false⟩ := by
  cases ra <;> cases ck <;> cases cl <;> rfl

/-- Inversion: a non-`NULL` `receiverCaptureAudio` return determines the
returned object and the surviving handle, and certifies that the frame passed
validation and that the planar frame was not released during the call. -/
theorem receiverCaptureAudio_some_inv {ra ck cl : Bool}
    {f : NDIlib_audio_frame_v2_t} {m b n : Bool} {out : AudioFrameOut}
    (hout : (receiverCaptureAudio ra ck cl (some f) m b n).result = some out) :
    ∃ mem, f.p_data = some mem ∧
    out = { sampleRate := f.sample_rate, channels := f.no_channels,
            samplesPerChannel := f.no_samples, timestamp := f.timestamp,
            buffer := interleave_audio mem f.channel_stride_in_bytes
              f.no_channels.toNat f.no_samples.toNat } ∧
    (receiverCaptureAudio ra ck cl (some f) m b n).handle =
      some { frame := f,
             interleaved_data := interleave_audio mem f.channel_stride_in_bytes
               f.no_channels.toNat f.no_samples.toNat,
             interleaved_bytes := f.no_channels.toNat * f.no_samples.toNat * 4 } ∧
    (receiverCaptureAudio ra ck cl (some f) m b n).planarFreedDuringCapture = false ∧
    0 < f.sample_rate ∧ 0 < f.no_channels ∧ 0 < f.no_samples := by
  unfold receiverCaptureAudio at hout ⊢
  repeat' split at hout
  all_goals simp_all
  repeat' split
  all_goals simp_all
  all_goals omega

/-- An audio frame with a `NULL` data pointer or a non-positive sample rate,
channel count or sample count is released to the engine and `NULL` is
returned. -/
theorem receiverCaptureAudio_invalid {f : NDIlib_audio_frame_v2_t} {m b n : Bool}
    (hbad : f.p_data = none ∨ f.sample_rate ≤ 0 ∨ f.no_channels ≤ 0 ∨
      f.no_samples ≤ 0) :
    receiverCaptureAudio true true true (some f) m b n =
      { result := none, handle := none, planarFreedDuringCapture := true } := by
  unfold receiverCaptureAudio
  rcases hf : f.p_data with _ | mem <;> rcases hbad with h | h | h | h <;> simp_all

/-- The interleaved buffer holds `samples * channels` entries. -/
theorem interleave_audio_length (mem : Nat → Int) (stride : Int) (ch n : Nat) :
    (interleave_audio mem stride ch n).length = n * ch := by
  induction n with
  | zero => simp [interleave_audio]
  | succ k ih =>
    unfold interleave_audio at ih ⊢
    rw [List.range_succ, List.flatMap_append]
    simp [ih]
    ring

/-- Entry `s * channels + c` of the interleaved buffer is the float read at
`planar_byte_offset stride c s`. -/
theorem interleave_audio_getElem (mem : Nat → Int) (stride : Int)
    (ch n s c : Nat) (hs : s < n) (hc : c < ch) :
    (interleave_audio mem stride ch n)[s * ch + c]? =
      some (mem (planar_byte_offset stride c s)) := by
  induction n with
  | zero => omega
  | succ k ih =>
    have hlen := interleave_audio_length mem stride ch k
    unfold interleave_audio at ih hlen ⊢
    rw [List.range_succ, List.flatMap_append, List.getElem?_append]
    rcases Nat.lt_or_ge s k with h | h
    · have hidx : s * ch + c < k * ch := by
        calc s * ch + c < s * ch + ch := by omega
          _ = (s + 1) * ch := by ring
          _ ≤ k * ch := Nat.mul_le_mul_right _ (by omega)
      rw [if_pos (by rw [hlen]; exact hidx)]
      exact ih h
    · have hs' : s = k := by omega
      subst hs'
      rw [if_neg (by rw [hlen]; omega)]
      rw [hlen]
      have hsub : s * ch + c - s * ch = c := by omega
      rw [hsub]
      simp [List.getElem?_map, List.getElem?_range, hc]

/-- T-division by a positive divisor is truncation toward zero of the exact
rational quotient — the C `(int)` cast of the exact `double` quotient. -/
theorem tdiv_eq_rat_trunc (a b : Int) (hb : 0 < b) :
    Int.tdiv a b = rat_trunc ((a : ℚ) / (b : ℚ)) := by
  obtain ⟨d, rfl⟩ : ∃ d : ℕ, b = (d : ℤ) := ⟨b.toNat, (Int.toNat_of_nonneg hb.le).symm⟩
  rcases le_or_lt 0 a with ha | ha
  · have hx : (0:ℚ) ≤ (a : ℚ) / ((d : ℤ) : ℚ) :=
      div_nonneg (by exact_mod_cast ha) (by exact_mod_cast hb.le)
    rw [rat_trunc, if_pos hx, Int.tdiv_eq_ediv ha hb.le]
    rw [show (((d : ℤ) : ℚ)) = (d : ℚ) by push_cast; ring]
    exact (Rat.floor_intCast_div_natCast a d).symm
  · have hx : (a : ℚ) / ((d : ℤ) : ℚ) < 0 :=
      div_neg_of_neg_of_pos (by exact_mod_cast ha) (by exact_mod_cast hb)
    rw [rat_trunc, if_neg (not_le.mpr hx)]
    have h1 : Int.tdiv a (d : ℤ) = -(Int.tdiv (-a) (d : ℤ)) := by
      rw [Int.neg_tdiv, neg_neg]
    rw [h1, Int.tdiv_eq_ediv (by omega) hb.le]
    rw [show ((a:ℚ) / (((d : ℤ)):ℚ)) = -(((-a : ℤ) : ℚ) / (((d : ℤ)):ℚ)) by
      push_cast; ring]
    rw [Int.ceil_neg]
    congr 1
    rw [show (((d : ℤ) : ℚ)) = (d : ℚ) by push_cast; ring]
    exact (Rat.floor_intCast_div_natCast (-a) d).symm

/-! The claims. -/

/-- C1 counterexample: on a successful `captureAudio` of a well-formed frame,
the planar frame is NOT released back to the engine before the call returns —
`NDIlib_recv_free_audio_v2` is never invoked on the success path, contrary to
the claim that the planar buffer's lifetime does not extend past the call. -/
theorem C1_planar_release_cex :
    ((receiverCaptureAudio true true true (some audioValid) true true true).result).isSome
      = true ∧
    (receiverCaptureAudio true true true
      (some audioValid) true true true).planarFreedDuringCapture = false :=
  ⟨rfl, rfl⟩

/-- C1 (amended): on a successful `captureAudio` the planar frame is retained
(not released) — the handle struct keeps the captured descriptor — and it is
the later `freeAudio` call that performs the actual release of the planar
frame back to the engine, besides freeing the interleaved buffer and the
handle struct; `freeAudio` on a zero handle is a no-op. -/
theorem C1_audio_lifecycle_amended (ra ck cl : Bool)
    (cap : Option NDIlib_audio_frame_v2_t) (m b n : Bool)
    (h : ((receiverCaptureAudio ra ck cl cap m b n).result).isSome = true) :
    (receiverCaptureAudio ra ck cl cap m b n).planarFreedDuringCapture = false ∧
    (∀ hnd : NdiAudioFrameHandle,
      (receiverCaptureAudio ra ck cl cap m b n).handle = some hnd →
        cap = some hnd.frame) ∧
    (∀ hnd : NdiAudioFrameHandle,
      receiverFreeAudio (some hnd) =
        { planarReleasedToEngine := true, interleavedFreed := true,
          handleStructFreed := true }) ∧
    receiverFreeAudio none =
      { planarReleasedToEngine := false, interleavedFreed := false,
        handleStructFreed := false } := by
  match cap with
  | none =>
    rw [receiverCaptureAudio_none] at h
    simp at h
  | some f =>
    obtain ⟨out, hout⟩ := Option.isSome_iff_exists.mp h
    obtain ⟨mem, hmem, hEq, hhandle, hfree, h1, h2, h3⟩ :=
      receiverCaptureAudio_some_inv hout
    refine ⟨hfree, ?_, fun hnd => rfl, rfl⟩
    intro hnd hh
    rw [hhandle] at hh
    obtain rfl := Option.some.inj hh
    rfl

/-- C1 witness: the amended theorem applied to the concrete well-formed frame
`audioValid`. -/
theorem C1_witness :
    (receiverCaptureAudio true true true
      (some audioValid) true true true).planarFreedDuringCapture = false ∧
    receiverFreeAudio none =
      { planarReleasedToEngine := false, interleavedFreed := false,
        handleStructFreed := false } :=
  ⟨(C1_audio_lifecycle_amended true true true (some audioValid) true true true rfl).1,
   (C1_audio_lifecycle_amended true true true (some audioValid) true true true rfl).2.2.2⟩

/-- C2: a captured video frame with a `NULL` data pointer or a non-positive
computed buffer size is released back to the engine and an empty result is
returned, and no returned frame object ever carries a `NULL` buffer pointer
or a non-positive buffer size. -/
theorem C2_captureVideo_malformed_rejected (f : NDIlib_video_frame_v2_t)
    (b n : Bool)
    (hbad : f.p_data = 0 ∨ video_buffer_size f ≤ 0) :
    receiverCaptureVideo true true true (some f) b n = ⟨none, true⟩ ∧
    (∀ (ra ck cl b2 n2 : Bool) (cap : Option NDIlib_video_frame_v2_t)
        (out : VideoFrameOut),
      (receiverCaptureVideo ra ck cl cap b2 n2).result = some out →
        out.bufferPtr ≠ 0 ∧ 0 < out.bufferSize) := by
  refine ⟨receiverCaptureVideo_invalid hbad, ?_⟩
  intro ra ck cl b2 n2 cap out hout
  match cap with
  | none =>
    rw [receiverCaptureVideo_none] at hout
    simp at hout
  | some g =>
    obtain ⟨hEq, hp, hs, -⟩ := receiverCaptureVideo_some_inv hout
    subst hEq
    exact ⟨hp, hs⟩

/-- C2 witness: the theorem applied to the concrete `NULL`-data frame
`vfNullData`. -/
theorem C2_witness :
    receiverCaptureVideo true true true (some vfNullData) true true
      = ⟨none, true⟩ ∧
    vfNullData.p_data = 0 :=
  ⟨(C2_captureVideo_malformed_rejected vfNullData true true (Or.inl rfl)).1, rfl⟩

/-- C3: the buffer size exposed by a successful `captureVideo` equals the
engine-reported byte size for the two compressed FourCC tags and
`|line stride| * yres` otherwise, with a negative stride contributing its
magnitude only. -/
theorem C3_captureVideo_buffer_size (ra ck cl : Bool)
    (f : NDIlib_video_frame_v2_t) (b n : Bool) (out : VideoFrameOut)
    (hout : (receiverCaptureVideo ra ck cl (some f) b n).result = some out) :
    out.bufferSize =
      if is_compressed_fourcc f.FourCC then f.data_size_in_bytes
      else (f.line_stride_in_bytes.natAbs : Int) * f.yres := by
  obtain ⟨hEq, -, -, -⟩ := receiverCaptureVideo_some_inv hout
  subst hEq
  show video_buffer_size f = _
  unfold video_buffer_size
  split
  · rfl
  · congr 1
    split <;> omega

/-- C3 witness: the theorem applied to the concrete uncompressed frame `vfEx`
with stride `-1920` and `yres = 1080`, whose exposed size is `1920 * 1080`. -/
theorem C3_witness :
    (receiverCaptureVideo true true true (some vfEx) true true).result
      = some vfExOut ∧
    vfExOut.bufferSize =
      (if is_compressed_fourcc vfEx.FourCC then vfEx.data_size_in_bytes
       else (vfEx.line_stride_in_bytes.natAbs : Int) * vfEx.yres) ∧
    vfExOut.bufferSize = 1920 * 1080 :=
  ⟨by decide,
   C3_captureVideo_buffer_size true true true vfEx true true vfExOut (by decide),
   by decide⟩

/-- C4: the interleaved buffer of a successful `captureAudio` holds
`channels * samplesPerChannel` entries, and entry `s * channels + c` is the
`s`-th sample of planar channel `c`, read at byte offset
`c * channel_stride + 4 * s` from the base pointer (side conditions state
that the stride is a sane `size_t`-representable non-negative value and the
offset does not wrap). -/
theorem C4_captureAudio_interleaving (ra ck cl : Bool)
    (f : NDIlib_audio_frame_v2_t) (mem : Nat → Int) (m b n : Bool)
    (out : AudioFrameOut)
    (hdata : f.p_data = some mem)
    (hout : (receiverCaptureAudio ra ck cl (some f) m b n).result = some out)
    (s c : Nat) (hs : s < f.no_samples.toNat) (hc : c < f.no_channels.toNat)
    (hstride_nonneg : 0 ≤ f.channel_stride_in_bytes)
    (hstride_lt : f.channel_stride_in_bytes < 2 ^ 64)
    (hfit : c * f.channel_stride_in_bytes.toNat + 4 * s < 2 ^ 64) :
    out.buffer.length = f.no_channels.toNat * f.no_samples.toNat ∧
    out.buffer[s * f.no_channels.toNat + c]? =
      some (mem (c * f.channel_stride_in_bytes.toNat + 4 * s)) := by
  obtain ⟨mem2, hmem2, hEq, -, -, -, -, -⟩ := receiverCaptureAudio_some_inv hout
  rw [hdata] at hmem2
  obtain rfl := Option.some.inj hmem2
  subst hEq
  constructor
  · show (interleave_audio _ _ _ _).length = _
    rw [interleave_audio_length]
    ring
  · show (interleave_audio _ _ _ _)[_]? = _
    rw [interleave_audio_getElem mem f.channel_stride_in_bytes
      f.no_channels.toNat f.no_samples.toNat s c hs hc]
    have hoff : planar_byte_offset f.channel_stride_in_bytes c s
        = c * f.channel_stride_in_bytes.toNat + 4 * s := by
      unfold planar_byte_offset size_t_cast
      rw [Int.emod_eq_of_lt hstride_nonneg hstride_lt]
      exact Nat.mod_eq_of_lt hfit
    rw [hoff]

/-- C4 witness: the theorem applied to the spec's example — 2 channels of 4
samples, channel 0 `[1,2,3,4]`, channel 1 `[10,20,30,40]` — which interleaves
to `[1,10,2,20,3,30,4,40]`; checked here at `s = 1`, `c = 1`. -/
theorem C4_witness :
    (receiverCaptureAudio true true true (some audioEx) true true true).result
      = some audioExOut ∧
    audioExOut.buffer = [1, 10, 2, 20, 3, 30, 4, 40] ∧
    audioExOut.buffer.length = audioEx.no_channels.toNat * audioEx.no_samples.toNat ∧
    audioExOut.buffer[1 * audioEx.no_channels.toNat + 1]? =
      some (memEx (1 * audioEx.channel_stride_in_bytes.toNat + 4 * 1)) := by
  have h := C4_captureAudio_interleaving true true true audioEx memEx
    true true true audioExOut rfl rfl 1 1 (by decide) (by decide)
    (by decide) (by decide) (by decide)
  exact ⟨rfl, by decide, h.1, h.2⟩

/-- C5 counterexample: the code truncates the quality quotient toward zero
rather than rounding it to the nearest integer.  With one connection,
`total = 3`, `dropped = 1`, the code yields `(int)(100 - 100/3) = 66`, while
the claimed `clamp(round(100 * (1 - 1/3)), 0, 100)` is `67`. -/
theorem C5_round_cex :
    quality_score 1 3 1 = 66 ∧ quality_score_spec_rounded 1 3 1 = 67 := by
  constructor
  · decide
  · unfold quality_score_spec_rounded spec_round
    norm_num

/-- C5 (amended): the quality score is 0 when the connection count is 0, 100
when connections exist and the video total is 0, and otherwise
`clamp(trunc(100 * (1 - dropped/total)), 0, 100)` with truncation toward zero
(not rounding); it always lies in `[0, 100]`, and equals 75 at
`total = 100`, `dropped = 25`. -/
theorem C5_quality_score_amended (connections totalVideo droppedVideo : Int) :
    (connections = 0 → quality_score connections totalVideo droppedVideo = 0) ∧
    (0 < connections → totalVideo = 0 →
      quality_score connections totalVideo droppedVideo = 100) ∧
    (0 < connections → 0 < totalVideo →
      quality_score connections totalVideo droppedVideo =
        min 100 (max 0 (rat_trunc
          (100 * (1 - (droppedVideo : ℚ) / (totalVideo : ℚ)))))) ∧
    0 ≤ quality_score connections totalVideo droppedVideo ∧
    quality_score connections totalVideo droppedVideo ≤ 100 ∧
    quality_score 1 100 25 = 75 := by
  refine ⟨?_, ?_, ?_, ?_, ?_, by decide⟩
  · intro hc
    simp [quality_score, hc]
  · intro hc ht
    simp [quality_score, hc, ht]
  · intro hc ht
    have key : Int.tdiv (100 * totalVideo - 100 * droppedVideo) totalVideo
        = rat_trunc (100 * (1 - (droppedVideo : ℚ) / (totalVideo : ℚ))) := by
      rw [tdiv_eq_rat_trunc _ _ ht]
      congr 1
      have htQ : (totalVideo : ℚ) ≠ 0 := by
        exact_mod_cast ht.ne'
      field_simp
      ring
    simp only [quality_score, if_pos hc, if_pos ht]
    rw [← key]
    generalize Int.tdiv (100 * totalVideo - 100 * droppedVideo) totalVideo = q
    split_ifs <;> omega
  · simp only [quality_score]
    generalize Int.tdiv (100 * totalVideo - 100 * droppedVideo) totalVideo = q
    split_ifs <;> omega
  · simp only [quality_score]
    generalize Int.tdiv (100 * totalVideo - 100 * droppedVideo) totalVideo = q
    split_ifs <;> omega

/-- C5 witness: the amended theorem applied at concrete inputs for each of
its clauses, including the formula clause at one connection, `total = 4`,
`dropped = 1`. -/
theorem C5_witness :
    quality_score 0 7 3 = 0 ∧
    quality_score 2 0 5 = 100 ∧
    quality_score 1 4 1 =
      min 100 (max 0 (rat_trunc
        (100 * (1 - ((1 : ℤ) : ℚ) / ((4 : ℤ) : ℚ))))) ∧
    quality_score 1 100 25 = 75 :=
  ⟨(C5_quality_score_amended 0 7 3).1 rfl,
   (C5_quality_score_amended 2 0 5).2.1 (by decide) rfl,
   (C5_quality_score_amended 1 4 1).2.2.1 (by decide) (by decide),
   (C5_quality_score_amended 1 100 25).2.2.2.2.2⟩

/-- C6: a captured audio frame with a non-positive sample rate, channel count
or samples-per-channel, or a `NULL` data pointer, is released back to the
engine and an empty result is returned — no interleaved buffer or handle is
produced. -/
theorem C6_captureAudio_invalid_rejected (f : NDIlib_audio_frame_v2_t)
    (m b n : Bool)
    (hbad : f.p_data = none ∨ f.sample_rate ≤ 0 ∨ f.no_channels ≤ 0 ∨
      f.no_samples ≤ 0) :
    receiverCaptureAudio true true true (some f) m b n =
      { result := none, handle := none, planarFreedDuringCapture := true } :=
  receiverCaptureAudio_invalid hbad

/-- C6 witness: the theorem applied to the concrete zero-channel frame
`audioBad`. -/
theorem C6_witness :
    audioBad.no_channels ≤ 0 ∧
    receiverCaptureAudio true true true (some audioBad) true true true =
      { result := none, handle := none, planarFreedDuringCapture := true } :=
  ⟨by decide,
   C6_captureAudio_invalid_rejected audioBad true true true
     (Or.inr (Or.inr (Or.inl (by decide))))⟩

/-- C7 counterexample: the stride field is not always passed through — a
successful capture of the compressed frame `vfCompressed`, whose engine
stride is 7, reports stride 0 to the caller. -/
theorem C7_stride_cex :
    ((receiverCaptureVideo true true true (some vfCompressed) true true).result.map
      (fun o => o.stride)) = some 0 ∧
    vfCompressed.line_stride_in_bytes = 7 :=
  ⟨by decide, rfl⟩

/-- C7 (amended): for a successful `captureVideo` of an UNCOMPRESSED frame
the reported stride is the engine-reported line stride in bytes, sign
included; for a compressed frame the reported stride is 0. -/
theorem C7_stride_amended (ra ck cl : Bool) (f : NDIlib_video_frame_v2_t)
    (b n : Bool) (out : VideoFrameOut)
    (hout : (receiverCaptureVideo ra ck cl (some f) b n).result = some out) :
    out.stride =
      if is_compressed_fourcc f.FourCC then 0 else f.line_stride_in_bytes := by
  obtain ⟨hEq, -, -, -⟩ := receiverCaptureVideo_some_inv hout
  subst hEq
  rfl

/-- C7 witness: the amended theorem applied to the uncompressed frame
`vfNegStride`, whose negative stride `-5` is passed through with its sign. -/
theorem C7_witness :
    (receiverCaptureVideo true true true (some vfNegStride) true true).result
      = some vfNegStrideOut ∧
    vfNegStrideOut.stride =
      (if is_compressed_fourcc vfNegStride.FourCC then 0
       else vfNegStride.line_stride_in_bytes) ∧
    vfNegStrideOut.stride = -5 :=
  ⟨by decide,
   C7_stride_amended true true true vfNegStride true true vfNegStrideOut (by decide),
   by decide⟩

/-- C8: `finderGetSources` never reports an error — its return type has no
error channel: a zero or released finder handle yields the absent value
(`NULL`, the type's "empty" result), a valid finder with zero current
sources yields the empty sequence (not a failure), and in general a valid
finder yields exactly its current names with `NULL` names marshalled as
empty strings. -/
theorem C8_getSources_no_error :
    (∀ (rel : Bool) (src : List (Option String)) (ok : Bool),
      finderGetSources true rel src ok = none) ∧
    (∀ (src : List (Option String)) (ok : Bool),
      finderGetSources false true src ok = none) ∧
    finderGetSources false false [] true = some [] ∧
    (∀ src : List (Option String),
      finderGetSources false false src true =
        some (src.map (fun nm => nm.getD ""))) :=
  ⟨fun _ _ _ => rfl, fun _ _ => rfl, rfl, fun _ => rfl⟩

/-- C9: `initialize` is idempotent — after a successful call, a second call
returns success, does not invoke the engine's own setup again, and leaves the
state (and the `isInitialized` query) unchanged at `true` — and `destroy`
when never initialized is a no-op that does not invoke the engine. -/
theorem C9_init_idempotent_destroy_safe (s : LibState) (ok1 ok2 : Bool)
    (h : (lib_init s ok1).ret = true) :
    (lib_init (lib_init s ok1).state ok2).ret = true ∧
    (lib_init (lib_init s ok1).state ok2).engineInitCalled = false ∧
    (lib_init (lib_init s ok1).state ok2).state = (lib_init s ok1).state ∧
    lib_is_initialized (lib_init (lib_init s ok1).state ok2).state = true ∧
    lib_destroy ⟨false⟩ = ⟨⟨false⟩, false⟩ := by
  obtain ⟨flag⟩ := s
  revert h
  cases flag <;> cases ok1 <;> cases ok2 <;> decide

/-- C9 witness: the theorem applied to a fresh state with a succeeding engine
setup. -/
theorem C9_witness :
    (lib_init (lib_init ⟨false⟩ true).state true).ret = true ∧
    (lib_init (lib_init ⟨false⟩ true).state true).engineInitCalled = false ∧
    (lib_init (lib_init ⟨false⟩ true).state true).state
      = (lib_init ⟨false⟩ true).state ∧
    lib_is_initialized (lib_init (lib_init ⟨false⟩ true).state true).state = true ∧
    lib_destroy ⟨false⟩ = ⟨⟨false⟩, false⟩ :=
  C9_init_idempotent_destroy_safe ⟨false⟩ true true (by decide)

/-- C10: the bandwidth and color-format mappers are total — every documented
input maps to its designated native value, and every other integer, negative
numbers included, maps to the fixed default (`highest` bandwidth;
`UYVY_BGRA` color format). -/
theorem C10_mappers_total :
    map_bandwidth 0 = .metadata_only ∧
    map_bandwidth 1 = .audio_only ∧
    map_bandwidth 2 = .lowest ∧
    map_bandwidth 3 = .highest ∧
    (∀ b : Int, b ≠ 0 → b ≠ 1 → b ≠ 2 → b ≠ 3 → map_bandwidth b = .highest) ∧
    map_color_format 0 = .BGRX_BGRA ∧
    map_color_format 1 = .UYVY_BGRA ∧
    map_color_format 2 = .RGBX_RGBA ∧
    map_color_format 3 = .UYVY_RGBA ∧
    map_color_format 100 = .fastest ∧
    map_color_format 101 = .best ∧
    (∀ c : Int, c ≠ 0 → c ≠ 1 → c ≠ 2 → c ≠ 3 → c ≠ 100 → c ≠ 101 →
      map_color_format c = .UYVY_BGRA) := by
  refine ⟨rfl, rfl, rfl, rfl, ?_, rfl, rfl, rfl, rfl, rfl, rfl, ?_⟩
  · intro b h0 h1 h2 h3
    simp [map_bandwidth, h0, h1, h2, h3]
  · intro c h0 h1 h2 h3 h100 h101
    simp [map_color_format, h0, h1, h2, h3, h100, h101]

end NdiWrapper
